import Mathlib

/-!
Verification development for the protocol-scheme interception layer of
`atom/browser/api/atom_api_protocol.cc`: a shallow embedding of the
`Protocol` registry (its `protocol_handlers_` map, the four mutation
operations with their thread-hopping sequences, and the adapter job's
`GetJobTypeInUI` dispatcher), together with theorems about the embedded
operations.
-/

namespace Atom

/-- The value of `net::ERR_NOT_IMPLEMENTED`. -/
def ERR_NOT_IMPLEMENTED : Int := -11

/-- `Protocol::JsProtocolHandler` is a `base::Callback`; a default-constructed
callback is null.  We model a handler reference by an identity: `none` is the
null (default-constructed) callback, `some n` a real user handler. -/
abbrev JsHandler := Option Nat

/-- A `net::URLRequestJobFactory::ProtocolHandler` living in the job factory.
`builtin` is an opaque handler the network stack installed for a default
scheme; `customNone` is a `CustomProtocolHandler` whose `protocol_handler_`
member is null (built by `RegisterProtocolInIO`); `customSome w` is a
`CustomProtocolHandler` wrapping the prior handler `w` (built by
`InterceptProtocolInIO`). -/
inductive Handler where
  | builtin (id : Nat)
  | customNone
  | customSome (wrapped : Handler)
deriving DecidableEq, Repr

/-- `CustomProtocolHandler::original_handler()`: the wrapped prior handler, or
null.  (On a `builtin` handler the source would perform an invalid cast; the
operations below never call it there.) -/
def Handler.originalHandler : Handler → Option Handler
  | .builtin _ => none
  | .customNone => none
  | .customSome w => some w

/-- An association list standing for a `std::map` keyed by scheme. -/
abbrev SchemeMap (α : Type) := List (String × α)

/-- `ContainsKey(map, key)`. -/
def containsKey {α : Type} (m : SchemeMap α) (k : String) : Bool :=
  m.any (fun p => p.1 == k)

/-- `map[key] = value`: replace the entry in place when the key is present,
otherwise add a new entry. -/
def mapInsert {α : Type} (m : SchemeMap α) (k : String) (v : α) : SchemeMap α :=
  if containsKey m k then m.map (fun p => if p.1 == k then (k, v) else p)
  else m ++ [(k, v)]

/-- `map.erase(key)`. -/
def mapErase {α : Type} (m : SchemeMap α) (k : String) : SchemeMap α :=
  m.filter (fun p => !(p.1 == k))

/-- Modelled from the spec: the I/O-thread `AtomURLRequestJobFactory` (its
source is not part of this repository).  Section 6 gives its interface:
`SetHandler(scheme, handler-or-null)`, `GetHandler(scheme) → handler-or-null`,
`ReplaceHandler(scheme, handler) → previous-handler`,
`IsHandledScheme(scheme) → bool`.  `handlers` is its per-scheme handler map;
`builtinHandled` the schemes the network stack classifies as handled without a
factory handler entry. -/
structure Factory where
  handlers : SchemeMap Handler
  builtinHandled : List String
deriving DecidableEq, Repr

/-- Modelled from the spec: `IsHandledScheme` answers whether any handler
(built-in or custom) currently serves the scheme. -/
def Factory.isHandledProtocol (f : Factory) (s : String) : Bool :=
  containsKey f.handlers s || f.builtinHandled.contains s

/-- Modelled from the spec: whether the factory's handler map has an entry for
the scheme (`GetHandler(scheme)` is non-null). -/
def Factory.hasProtocolHandler (f : Factory) (s : String) : Bool :=
  containsKey f.handlers s

/-- Modelled from the spec: `GetHandler(scheme) → handler-or-null`. -/
def Factory.getProtocolHandler (f : Factory) (s : String) : Option Handler :=
  List.lookup s f.handlers

/-- Modelled from the spec: `SetHandler(scheme, handler-or-null)`; a null
handler clears the scheme's entry. -/
def Factory.setProtocolHandler (f : Factory) (s : String) (h : Option Handler) :
    Factory :=
  match h with
  | none => { f with handlers := mapErase f.handlers s }
  | some hh => { f with handlers := mapInsert f.handlers s hh }

/-- Modelled from the spec: `ReplaceHandler(scheme, handler)` installs the new
handler and returns the previous one. -/
def Factory.replaceProtocol (f : Factory) (s : String) (h : Handler) :
    Option Handler × Factory :=
  (List.lookup s f.handlers, { f with handlers := mapInsert f.handlers s h })

/-- The state of the `Protocol` registry: its user-thread `protocol_handlers_`
map together with the I/O-thread factory it mirrors into. -/
structure ProtocolState where
  handlers : SchemeMap JsHandler
  factory : Factory
deriving DecidableEq, Repr

/-- `Protocol::GetProtocolHandler` is `return protocol_handlers_[scheme];` —
`std::map::operator[]` inserts a default-constructed (null) callback when the
key is absent, so the lookup returns the handler and the possibly grown map. -/
def getProtocolHandler (st : ProtocolState) (scheme : String) :
    JsHandler × ProtocolState :=
  match List.lookup scheme st.handlers with
  | some h => (h, st)
  | none => (none, { st with handlers := mapInsert st.handlers scheme none })

/-- Observable events of one mutation operation, in the order they happen:
mutations of the registry map, mutations of the factory on the I/O thread, and
the single run of the caller's completion callback. -/
inductive Event where
  | mapMutation
  | factoryMutation
  | replyOk
  | replyError (msg : String)
deriving DecidableEq, Repr

/-- How an operation ended: `completed` means control flow ran to the reply;
`assertionFailure` means a `NOTREACHED()` assertion was reached on the I/O
thread (treated, as in the spec, as an unrecoverable programming error that
stops the operation); `crash` is a null dereference or invalid cast. -/
inductive OpStatus where
  | completed
  | assertionFailure
  | crash
deriving DecidableEq, Repr

/-- Result of one full mutation operation: final state, the event trace in
program order, and how the operation ended. -/
structure OpResult where
  state : ProtocolState
  trace : List Event
  status : OpStatus
deriving DecidableEq, Repr

/-- `Protocol::RegisterProtocolInIO`: install a fresh `CustomProtocolHandler`
(wrapping nothing) for the scheme. -/
def registerProtocolIoTask (f : Factory) (scheme : String) : Factory :=
  f.setProtocolHandler scheme (some Handler.customNone)

/-- `Protocol::UnregisterProtocolInIO`: clear the scheme's factory handler. -/
def unregisterProtocolIoTask (f : Factory) (scheme : String) : Factory :=
  f.setProtocolHandler scheme none

/-- Outcome of an I/O-thread task that can hit an assertion. -/
inductive IoOutcome where
  | ok (f : Factory)
  | assertionFailure
  | crash
deriving DecidableEq, Repr

/-- `Protocol::InterceptProtocolInIO`: fetch the scheme's current factory
handler (`NOTREACHED()` when null) and replace it with a
`CustomProtocolHandler` wrapping it. -/
def interceptProtocolIoTask (f : Factory) (scheme : String) : IoOutcome :=
  match f.getProtocolHandler scheme with
  | none => .assertionFailure
  | some orig => .ok (f.replaceProtocol scheme (Handler.customSome orig)).2

/-- `Protocol::UninterceptProtocolInIO`: cast the scheme's factory handler to
`CustomProtocolHandler` (a null handler dereferences null; a built-in handler
makes the cast invalid), assert it wraps a prior handler (`NOTREACHED()` when
`original_handler()` is null), then release that prior handler back into the
factory and delete the wrapper. -/
def uninterceptProtocolIoTask (f : Factory) (scheme : String) : IoOutcome :=
  match f.getProtocolHandler scheme with
  | none => .crash
  | some (Handler.builtin _) => .crash
  | some Handler.customNone => .assertionFailure
  | some (Handler.customSome orig) => .ok (f.replaceProtocol scheme orig).2

/-- `Protocol::RegisterProtocol` composed with its asynchronous continuation:
query `IsHandledProtocol` on the I/O thread, then `OnRegisterProtocol` on the
user thread — fail when the scheme is handled or already in the map, otherwise
store the handler in the map, run `RegisterProtocolInIO`, and (per
`PostTaskAndReply`) reply success only after that task. -/
def registerProtocol (st : ProtocolState) (scheme : String) (handler : JsHandler) :
    OpResult :=
  let isHandled := st.factory.isHandledProtocol scheme
  if isHandled || containsKey st.handlers scheme then
    { state := st
      trace := [Event.replyError "The Scheme is already registered"]
      status := .completed }
  else
    let st1 : ProtocolState :=
      { st with handlers := mapInsert st.handlers scheme handler }
    let st2 : ProtocolState :=
      { st1 with factory := registerProtocolIoTask st1.factory scheme }
    { state := st2
      trace := [Event.mapMutation, Event.factoryMutation, Event.replyOk]
      status := .completed }

/-- `Protocol::UnregisterProtocol` composed with its continuation: fail when
the scheme is absent from the map, otherwise erase the map entry, run
`UnregisterProtocolInIO`, and reply success after it. -/
def unregisterProtocol (st : ProtocolState) (scheme : String) : OpResult :=
  if !(containsKey st.handlers scheme) then
    { state := st
      trace := [Event.replyError "The Scheme has not been registered"]
      status := .completed }
  else
    let st1 : ProtocolState := { st with handlers := mapErase st.handlers scheme }
    let st2 : ProtocolState :=
      { st1 with factory := unregisterProtocolIoTask st1.factory scheme }
    { state := st2
      trace := [Event.mapMutation, Event.factoryMutation, Event.replyOk]
      status := .completed }

/-- `Protocol::InterceptProtocol` composed with its continuation: query
`HasProtocolHandler` on the I/O thread, then `OnInterceptProtocol` — fail when
no factory handler exists, fail when the scheme is in the map, otherwise store
the handler, run `InterceptProtocolInIO`, and reply success after it. -/
def interceptProtocol (st : ProtocolState) (scheme : String) (handler : JsHandler) :
    OpResult :=
  let isHandled := st.factory.hasProtocolHandler scheme
  if !isHandled then
    { state := st
      trace := [Event.replyError "Scheme does not exist."]
      status := .completed }
  else if containsKey st.handlers scheme then
    { state := st
      trace := [Event.replyError "Cannot intercept custom protocols."]
      status := .completed }
  else
    let st1 : ProtocolState :=
      { st with handlers := mapInsert st.handlers scheme handler }
    match interceptProtocolIoTask st1.factory scheme with
    | .ok f2 =>
        { state := { st1 with factory := f2 }
          trace := [Event.mapMutation, Event.factoryMutation, Event.replyOk]
          status := .completed }
    | .assertionFailure =>
        { state := st1, trace := [Event.mapMutation], status := .assertionFailure }
    | .crash =>
        { state := st1, trace := [Event.mapMutation], status := .crash }

/-- `Protocol::UninterceptProtocol` composed with its continuation: fail when
the scheme is absent from the map, otherwise erase the map entry, run
`UninterceptProtocolInIO`, and reply success after it. -/
def uninterceptProtocol (st : ProtocolState) (scheme : String) : OpResult :=
  if !(containsKey st.handlers scheme) then
    { state := st
      trace := [Event.replyError "The Scheme has not been registered"]
      status := .completed }
  else
    let st1 : ProtocolState := { st with handlers := mapErase st.handlers scheme }
    match uninterceptProtocolIoTask st1.factory scheme with
    | .ok f2 =>
        { state := { st1 with factory := f2 }
          trace := [Event.mapMutation, Event.factoryMutation, Event.replyOk]
          status := .completed }
    | .assertionFailure =>
        { state := st1, trace := [Event.mapMutation], status := .assertionFailure }
    | .crash =>
        { state := st1, trace := [Event.mapMutation], status := .crash }

/-- A v8 object returned by a handler: its constructor name (the discriminant
`GetJobTypeInUI` switches on) and the fields `dict.Get` may extract; `none`
means the field is absent, in which case `dict.Get` leaves the out-parameter
at its initial value. -/
structure DecisionObj where
  ctorName : String
  mimeType : Option String := none
  charset : Option String := none
  strData : Option String := none
  encoding : Option String := none
  bufData : Option (List Nat) := none
  path : Option String := none
  errorCode : Option Int := none
  url : Option String := none
  method : Option String := none
  referrer : Option String := none
deriving DecidableEq, Repr

/-- The v8 decision value a scheme's handler returns, as
`CustomProtocolRequestJob::GetJobTypeInUI` inspects it: a plain string, an
object, or any other value. -/
inductive Decision where
  | str (s : String)
  | obj (o : DecisionObj)
  | other
deriving DecidableEq, Repr

/-- The concrete-job constructor the adapter job schedules back on the I/O
thread (the `AdapterRequestJob::Create...AndStart` continuations). -/
inductive JobAction where
  | createStringJob (mimeType charset data : String)
  | createBufferJob (mimeType encoding : String) (data : List Nat)
  | createFileJob (path : String)
  | createErrorJob (code : Int)
  | createHttpJob (url method referrer : String)
  | createJobFromProtocolHandler
deriving DecidableEq, Repr

/-- The tail of `GetJobTypeInUI`: when the decision matched no known job kind,
delegate to the default (wrapped prior) protocol handler when there is one,
else fall back to a not-implemented error job. -/
def fallbackAction (defaultProtocolHandler : Option Handler) : JobAction :=
  match defaultProtocolHandler with
  | some _ => .createJobFromProtocolHandler
  | none => .createErrorJob ERR_NOT_IMPLEMENTED

/-- `CustomProtocolRequestJob::GetJobTypeInUI`: a plain string becomes a
text/plain UTF-8 string job; an object is dispatched on its constructor name
(`RequestStringJob`, `RequestBufferJob`, `RequestFileJob`, `RequestErrorJob`,
`RequestHttpJob`) with `dict.Get` defaults (empty strings, empty buffer,
`ERR_NOT_IMPLEMENTED` for the error code); anything else goes to the
fallback. -/
def getJobTypeInUI (result : Decision) (defaultProtocolHandler : Option Handler) :
    JobAction :=
  match result with
  | .str data => .createStringJob "text/plain" "UTF-8" data
  | .obj o =>
    if o.ctorName == "RequestStringJob" then
      .createStringJob (o.mimeType.getD "") (o.charset.getD "") (o.strData.getD "")
    else if o.ctorName == "RequestBufferJob" then
      .createBufferJob (o.mimeType.getD "") (o.encoding.getD "") (o.bufData.getD [])
    else if o.ctorName == "RequestFileJob" then
      .createFileJob (o.path.getD "")
    else if o.ctorName == "RequestErrorJob" then
      .createErrorJob (o.errorCode.getD ERR_NOT_IMPLEMENTED)
    else if o.ctorName == "RequestHttpJob" then
      .createHttpJob (o.url.getD "") (o.method.getD "") (o.referrer.getD "")
    else fallbackAction defaultProtocolHandler
  | .other => fallbackAction defaultProtocolHandler

/-- The constructor names `GetJobTypeInUI` recognizes. -/
def recognizedCtorName (n : String) : Bool :=
  n == "RequestStringJob" || n == "RequestBufferJob" || n == "RequestFileJob" ||
  n == "RequestErrorJob" || n == "RequestHttpJob"

/-- A decision value matching none of the known job kinds: not a string, and
not an object with a recognized constructor name. -/
def unrecognizedDecision : Decision → Bool
  | .str _ => false
  | .obj o => !(recognizedCtorName o.ctorName)
  | .other => true

/-- The read-only request descriptor handed to the handler. -/
structure Request where
  method : String
  url : String
  referrer : String
deriving DecidableEq, Repr

/-- A started concrete job.  `handlerJob h req` is the job the protocol
handler `h` creates for `req` when job creation is delegated to it. -/
inductive Job where
  | stringJob (mimeType charset data : String)
  | bufferJob (mimeType encoding : String) (data : List Nat)
  | fileJob (path : String)
  | errorJob (code : Int)
  | httpJob (url method referrer : String)
  | handlerJob (h : Handler) (req : Request)
deriving DecidableEq, Repr

/-- Modelled from the spec: the job a protocol handler creates for a request
when asked directly (`MaybeCreateJob`); the handler implementations are not
part of this repository, so its output is kept opaque and determined by the
handler and the request. -/
def Handler.maybeCreateJob (h : Handler) (req : Request) : Job :=
  Job.handlerJob h req

/-- Modelled from the spec: running the scheduled `Create...AndStart`
continuation on the I/O thread (the `AdapterRequestJob` side is not part of
this repository; spec 4.3 lists the constructions, and
`CreateJobFromProtocolHandlerAndStart` delegates job creation to the wrapped
prior handler, producing its output — `none` when there is no such
handler). -/
def startJob (action : JobAction) (defaultProtocolHandler : Option Handler)
    (req : Request) : Option Job :=
  match action with
  | .createStringJob m c d => some (Job.stringJob m c d)
  | .createBufferJob m e d => some (Job.bufferJob m e d)
  | .createFileJob p => some (Job.fileJob p)
  | .createErrorJob c => some (Job.errorJob c)
  | .createHttpJob u m r => some (Job.httpJob u m r)
  | .createJobFromProtocolHandler =>
      defaultProtocolHandler.map (fun h => h.maybeCreateJob req)

/-- The dispatch an adapter job for `scheme` performs on decision `d`:
`CustomProtocolHandler::MaybeCreateJob` passes its wrapped prior handler (the
`protocol_handler_` member) to the job as `default_protocol_handler()`, and
the job then runs `GetJobTypeInUI`.  `none` when the scheme's factory handler
is not a `CustomProtocolHandler` (no adapter job is created for it). -/
def resolveRequestJob (st : ProtocolState) (scheme : String) (d : Decision) :
    Option JobAction :=
  match st.factory.getProtocolHandler scheme with
  | some Handler.customNone => some (getJobTypeInUI d none)
  | some (Handler.customSome w) => some (getJobTypeInUI d (some w))
  | _ => none

/-- Spec-side definition (spec 3, `RegistrationEntry`): the scheme currently
has a Registered-mode custom registration — an entry in the registry map whose
installed factory handler wraps no prior handler (mode `Registered`), as
opposed to an Intercepted-mode entry whose factory handler wraps one. -/
def registeredModeEntry (st : ProtocolState) (scheme : String) : Bool :=
  containsKey st.handlers scheme &&
    match st.factory.getProtocolHandler scheme with
    | some Handler.customNone => true
    | _ => false

/-- Whether an event is a run of the caller's completion callback. -/
def isReply : Event → Bool
  | Event.replyOk => true
  | Event.replyError _ => true
  | _ => false

/-- Number of completion-callback runs in a trace. -/
def replyCount (tr : List Event) : Nat :=
  (tr.filter isReply).length

theorem lookup_of_containsKey_eq_false {α : Type} {m : SchemeMap α} {k : String}
    (h : containsKey m k = false) : List.lookup k m = none := by
  induction m with
  | nil => rfl
  | cons p t ih =>
    simp only [containsKey, List.any_cons, Bool.or_eq_false_iff] at h
    obtain ⟨h1, h2⟩ := h
    simp only [List.lookup]
    have hk : (k == p.1) = false := by
      cases hkk : k == p.1 with
      | false => rfl
      | true =>
        rw [beq_iff_eq] at hkk
        rw [hkk] at h1
        simp at h1
    rw [hk]
    exact ih h2

theorem containsKey_of_lookup_eq_some {α : Type} {m : SchemeMap α} {k : String}
    {v : α} (h : List.lookup k m = some v) : containsKey m k = true := by
  induction m with
  | nil => simp [List.lookup] at h
  | cons p t ih =>
    simp only [List.lookup] at h
    simp only [containsKey, List.any_cons, Bool.or_eq_true]
    cases hkk : k == p.1 with
    | true =>
      left
      rw [beq_iff_eq] at hkk
      rw [hkk]
      exact beq_self_eq_true p.1
    | false =>
      right
      rw [hkk] at h
      exact ih h

theorem lookup_mapInsert_self {α : Type} (m : SchemeMap α) (k : String) (v : α) :
    List.lookup k (mapInsert m k v) = some v := by
  unfold mapInsert
  cases hc : containsKey m k with
  | false =>
    simp only [Bool.false_eq_true, if_false]
    induction m with
    | nil => simp [List.lookup]
    | cons p t ih =>
      simp only [containsKey, List.any_cons, Bool.or_eq_false_iff] at hc
      obtain ⟨h1, h2⟩ := hc
      have hk : (k == p.1) = false := by
        cases hkk : k == p.1 with
        | false => rfl
        | true =>
          rw [beq_iff_eq] at hkk
          rw [hkk] at h1
          simp at h1
      simp only [List.cons_append, List.lookup, hk]
      exact ih h2
  | true =>
    simp only [if_true]
    induction m with
    | nil => simp [containsKey] at hc
    | cons p t ih =>
      cases hkk : (p.1 == k) with
      | true =>
        rw [List.map_cons, if_pos hkk]
        simp [List.lookup]
      | false =>
        have hck : containsKey t k = true := by
          simpa [containsKey, hkk] using hc
        have hk : (k == p.1) = false := by
          cases hkk2 : k == p.1 with
          | false => rfl
          | true =>
            rw [beq_iff_eq] at hkk2
            rw [hkk2, beq_self_eq_true] at hkk
            exact absurd hkk (by simp)
        rw [List.map_cons, if_neg (by simp [hkk])]
        simp only [List.lookup, hk]
        exact ih hck

theorem containsKey_mapInsert_self {α : Type} (m : SchemeMap α) (k : String)
    (v : α) : containsKey (mapInsert m k v) k = true :=
  containsKey_of_lookup_eq_some (lookup_mapInsert_self m k v)

theorem containsKey_mapErase_self {α : Type} (m : SchemeMap α) (k : String) :
    containsKey (mapErase m k) k = false := by
  induction m with
  | nil => rfl
  | cons p t ih =>
    unfold mapErase at ih ⊢
    cases hkk : (p.1 == k) with
    | true =>
      simp only [List.filter_cons, hkk, Bool.not_true, if_false]
      exact ih
    | false =>
      simp only [List.filter_cons, hkk, Bool.not_false, if_true, containsKey,
        List.any_cons, hkk, Bool.false_or]
      exact ih

theorem lookup_mapErase_self {α : Type} (m : SchemeMap α) (k : String) :
    List.lookup k (mapErase m k) = none :=
  lookup_of_containsKey_eq_false (containsKey_mapErase_self m k)

/-- C1: `Register(scheme, handler)` fails with `AlreadyHandled` if and only if
the I/O-thread factory reports the scheme as already handled or the scheme is
already present in the registry map; on that failure the registry state is
unchanged, so the first registration's handler remains the one stored for the
scheme. -/
theorem register_fails_iff_alreadyHandled (st : ProtocolState) (scheme : String)
    (h : JsHandler) :
    ((registerProtocol st scheme h).trace =
        [Event.replyError "The Scheme is already registered"] ↔
      (st.factory.isHandledProtocol scheme = true ∨
        containsKey st.handlers scheme = true)) ∧
    ((st.factory.isHandledProtocol scheme = true ∨
        containsKey st.handlers scheme = true) →
      (registerProtocol st scheme h).state = st ∧
      List.lookup scheme (registerProtocol st scheme h).state.handlers =
        List.lookup scheme st.handlers) := by
  cases h1 : st.factory.isHandledProtocol scheme with
  | true => simp [registerProtocol, h1]
  | false =>
    cases h2 : containsKey st.handlers scheme with
    | true => simp [registerProtocol, h1, h2]
    | false => simp [registerProtocol, h1, h2]

/-- C1 witness: with "app" already in the registry map, registering it again
fails with the `AlreadyHandled` error and leaves the state unchanged. -/
theorem register_fails_iff_alreadyHandled_case :
    (registerProtocol
        ⟨[("app", some 0)], ⟨[("app", Handler.customNone)], []⟩⟩ "app"
        (some 1)).state =
      ⟨[("app", some 0)], ⟨[("app", Handler.customNone)], []⟩⟩ ∧
    (registerProtocol
        ⟨[("app", some 0)], ⟨[("app", Handler.customNone)], []⟩⟩ "app"
        (some 1)).trace =
      [Event.replyError "The Scheme is already registered"] :=
  ⟨((register_fails_iff_alreadyHandled
        ⟨[("app", some 0)], ⟨[("app", Handler.customNone)], []⟩⟩ "app"
        (some 1)).2 (Or.inr (by decide))).1,
    (register_fails_iff_alreadyHandled
        ⟨[("app", some 0)], ⟨[("app", Handler.customNone)], []⟩⟩ "app"
        (some 1)).1.mpr (Or.inr (by decide))⟩

/-- C5: `Unregister(scheme)` fails with `NotRegistered` if and only if the
scheme is absent from the registry map, and on that failure the state is
unchanged; on success the map entry is removed first (the map mutation
precedes the factory mutation in the trace) and the factory's handler for the
scheme is then cleared. -/
theorem unregister_fails_iff_notRegistered (st : ProtocolState) (scheme : String) :
    ((unregisterProtocol st scheme).trace =
        [Event.replyError "The Scheme has not been registered"] ↔
      containsKey st.handlers scheme = false) ∧
    (containsKey st.handlers scheme = false →
      (unregisterProtocol st scheme).state = st) ∧
    (containsKey st.handlers scheme = true →
      (unregisterProtocol st scheme).trace =
        [Event.mapMutation, Event.factoryMutation, Event.replyOk] ∧
      containsKey (unregisterProtocol st scheme).state.handlers scheme = false ∧
      (unregisterProtocol st scheme).state.factory.getProtocolHandler scheme =
        none) := by
  cases h : containsKey st.handlers scheme with
  | false => simp [unregisterProtocol, h]
  | true =>
    simp [unregisterProtocol, h, containsKey_mapErase_self,
      Factory.getProtocolHandler, unregisterProtocolIoTask,
      Factory.setProtocolHandler, lookup_mapErase_self]

/-- C5 witness: unregistering a scheme not in the map fails and leaves the
state unchanged; unregistering a present scheme removes it from map and
factory. -/
theorem unregister_fails_iff_notRegistered_case :
    (unregisterProtocol ⟨[("app", some 0)], ⟨[], []⟩⟩ "zip").state =
      ⟨[("app", some 0)], ⟨[], []⟩⟩ ∧
    (unregisterProtocol ⟨[("app", some 0)], ⟨[], []⟩⟩ "zip").trace =
      [Event.replyError "The Scheme has not been registered"] :=
  ⟨(unregister_fails_iff_notRegistered
      ⟨[("app", some 0)], ⟨[], []⟩⟩ "zip").2.1 (by decide),
    (unregister_fails_iff_notRegistered
      ⟨[("app", some 0)], ⟨[], []⟩⟩ "zip").1.mpr (by decide)⟩

/-- C2 counterexample: after intercepting the built-in scheme "http", a second
intercept fails with the CannotInterceptCustom error even though the scheme's
registration is Intercepted-mode, not Registered-mode — refuting "fails with
CannotInterceptCustom exactly when the scheme currently has a Registered-mode
custom registration". -/
theorem intercept_rejects_intercepted_scheme :
    (interceptProtocol
        (interceptProtocol ⟨[], ⟨[("http", Handler.builtin 0)], []⟩⟩ "http"
          (some 5)).state "http" (some 6)).trace =
      [Event.replyError "Cannot intercept custom protocols."] ∧
    registeredModeEntry
        (interceptProtocol ⟨[], ⟨[("http", Handler.builtin 0)], []⟩⟩ "http"
          (some 5)).state "http" = false := by
  decide

/-- C2 amended: `Intercept(scheme, handler)` fails with `NotHandled` if and
only if the I/O-thread factory reports no existing handler for the scheme, and
fails with `CannotInterceptCustom` if and only if the factory has a handler
and the scheme has any entry in the registry map (whether created by Register
or by a previous Intercept); on either failure the registry state is
unchanged. -/
theorem intercept_failure_modes (st : ProtocolState) (scheme : String)
    (h : JsHandler) :
    ((interceptProtocol st scheme h).trace =
        [Event.replyError "Scheme does not exist."] ↔
      st.factory.hasProtocolHandler scheme = false) ∧
    ((interceptProtocol st scheme h).trace =
        [Event.replyError "Cannot intercept custom protocols."] ↔
      (st.factory.hasProtocolHandler scheme = true ∧
        containsKey st.handlers scheme = true)) ∧
    ((st.factory.hasProtocolHandler scheme = false ∨
        containsKey st.handlers scheme = true) →
      (interceptProtocol st scheme h).state = st) := by
  cases h1 : st.factory.hasProtocolHandler scheme with
  | false => simp [interceptProtocol, h1]
  | true =>
    cases h2 : containsKey st.handlers scheme with
    | true => simp [interceptProtocol, h1, h2]
    | false =>
      cases hio : interceptProtocolIoTask st.factory scheme with
      | ok f2 => simp [interceptProtocol, h1, h2, hio]
      | assertionFailure => simp [interceptProtocol, h1, h2, hio]
      | crash => simp [interceptProtocol, h1, h2, hio]

/-- C2 witness: intercepting a scheme with no factory handler fails with the
NotHandled error and leaves the state unchanged. -/
theorem intercept_failure_modes_case :
    (interceptProtocol ⟨[], ⟨[], []⟩⟩ "zip" (some 1)).trace =
      [Event.replyError "Scheme does not exist."] ∧
    (interceptProtocol ⟨[], ⟨[], []⟩⟩ "zip" (some 1)).state = ⟨[], ⟨[], []⟩⟩ :=
  ⟨(intercept_failure_modes ⟨[], ⟨[], []⟩⟩ "zip" (some 1)).1.mpr (by decide),
    (intercept_failure_modes ⟨[], ⟨[], []⟩⟩ "zip" (some 1)).2.2
      (Or.inl (by decide))⟩

/-- C3: for a scheme whose factory handler is `H` and which has no entry in
the registry map, `Intercept(scheme, H2)` followed by `Unintercept(scheme)`
completes, restores the factory's handler for the scheme to exactly the
original handler `H` (released from the wrapper and re-installed), and removes
the map entry — so a request for the scheme is dispatched to `H` exactly as
before the interception. -/
theorem intercept_then_unintercept_restores (st : ProtocolState)
    (scheme : String) (h2 : JsHandler) (H : Handler)
    (hfac : st.factory.getProtocolHandler scheme = some H)
    (hmap : containsKey st.handlers scheme = false) :
    (uninterceptProtocol (interceptProtocol st scheme h2).state scheme).status =
      OpStatus.completed ∧
    (uninterceptProtocol (interceptProtocol st scheme h2).state
        scheme).state.factory.getProtocolHandler scheme = some H ∧
    containsKey
      (uninterceptProtocol (interceptProtocol st scheme h2).state
        scheme).state.handlers scheme = false := by
  have h1 : st.factory.hasProtocolHandler scheme = true :=
    containsKey_of_lookup_eq_some hfac
  have hio1 : interceptProtocolIoTask st.factory scheme =
      IoOutcome.ok
        ⟨mapInsert st.factory.handlers scheme (Handler.customSome H),
          st.factory.builtinHandled⟩ := by
    simp [interceptProtocolIoTask, hfac, Factory.replaceProtocol]
  have hA : (interceptProtocol st scheme h2).state =
      ⟨mapInsert st.handlers scheme h2,
        ⟨mapInsert st.factory.handlers scheme (Handler.customSome H),
          st.factory.builtinHandled⟩⟩ := by
    simp [interceptProtocol, h1, hmap, hio1]
  rw [hA]
  have hk1 : containsKey (mapInsert st.handlers scheme h2) scheme = true :=
    containsKey_mapInsert_self _ _ _
  have hio2 : uninterceptProtocolIoTask
      ⟨mapInsert st.factory.handlers scheme (Handler.customSome H),
        st.factory.builtinHandled⟩ scheme =
      IoOutcome.ok
        ⟨mapInsert (mapInsert st.factory.handlers scheme (Handler.customSome H))
            scheme H,
          st.factory.builtinHandled⟩ := by
    simp [uninterceptProtocolIoTask, Factory.getProtocolHandler,
      lookup_mapInsert_self, Factory.replaceProtocol]
  simp [uninterceptProtocol, hk1, hio2, Factory.getProtocolHandler,
    lookup_mapInsert_self, containsKey_mapErase_self]

/-- C3 witness: intercepting the built-in "http" handler with a new handler
and unintercepting restores the original factory handler and clears the map
entry. -/
theorem intercept_then_unintercept_restores_case :
    (uninterceptProtocol
        (interceptProtocol ⟨[], ⟨[("http", Handler.builtin 7)], []⟩⟩ "http"
          (some 5)).state "http").status = OpStatus.completed ∧
    (uninterceptProtocol
        (interceptProtocol ⟨[], ⟨[("http", Handler.builtin 7)], []⟩⟩ "http"
          (some 5)).state "http").state.factory.getProtocolHandler "http" =
      some (Handler.builtin 7) ∧
    containsKey
      (uninterceptProtocol
        (interceptProtocol ⟨[], ⟨[("http", Handler.builtin 7)], []⟩⟩ "http"
          (some 5)).state "http").state.handlers "http" = false :=
  intercept_then_unintercept_restores ⟨[], ⟨[("http", Handler.builtin 7)], []⟩⟩
    "http" (some 5) (Handler.builtin 7) (by decide) (by decide)

theorem getJobTypeInUI_unrecognized (d : Decision) (dph : Option Handler)
    (hu : unrecognizedDecision d = true) :
    getJobTypeInUI d dph = fallbackAction dph := by
  cases d with
  | str s => simp [unrecognizedDecision] at hu
  | other => rfl
  | obj o =>
    simp only [unrecognizedDecision, Bool.not_eq_true'] at hu
    simp only [recognizedCtorName, Bool.or_eq_false_iff] at hu
    obtain ⟨⟨⟨⟨n1, n2⟩, n3⟩, n4⟩, n5⟩ := hu
    simp [getJobTypeInUI, n1, n2, n3, n4, n5]

/-- C4: for a scheme whose installed factory handler is a registered-mode
`CustomProtocolHandler` (wrapping no prior handler), a handler decision
matching none of the known job kinds resolves to an error job carrying the
not-implemented code `ERR_NOT_IMPLEMENTED`. -/
theorem unrecognized_decision_not_implemented (st : ProtocolState)
    (scheme : String) (d : Decision)
    (hfac : st.factory.getProtocolHandler scheme = some Handler.customNone)
    (hu : unrecognizedDecision d = true) :
    resolveRequestJob st scheme d =
      some (JobAction.createErrorJob ERR_NOT_IMPLEMENTED) := by
  unfold resolveRequestJob
  rw [hfac, getJobTypeInUI_unrecognized d none hu]
  rfl

/-- C4 witness: an object with the unknown constructor name "Whatever" on a
registered scheme resolves to the not-implemented error job. -/
theorem unrecognized_decision_not_implemented_case :
    resolveRequestJob ⟨[("app", some 0)], ⟨[("app", Handler.customNone)], []⟩⟩
        "app" (Decision.obj { ctorName := "Whatever" }) =
      some (JobAction.createErrorJob ERR_NOT_IMPLEMENTED) :=
  unrecognized_decision_not_implemented
    ⟨[("app", some 0)], ⟨[("app", Handler.customNone)], []⟩⟩ "app"
    (Decision.obj { ctorName := "Whatever" }) (by decide) (by decide)

/-- C7: an unmatched ("Fallback") handler decision on a job whose default
protocol handler is the preserved original handler `H` delegates job creation
to `H`, producing `H`'s own job output unchanged; on a job with no wrapped
prior handler the same decision behaves as Unhandled and yields the
not-implemented error job. -/
theorem fallback_decision_delegates (d : Decision) (H : Handler) (req : Request)
    (hu : unrecognizedDecision d = true) :
    startJob (getJobTypeInUI d (some H)) (some H) req =
      some (H.maybeCreateJob req) ∧
    getJobTypeInUI d none = JobAction.createErrorJob ERR_NOT_IMPLEMENTED := by
  constructor
  · rw [getJobTypeInUI_unrecognized d (some H) hu]
    rfl
  · rw [getJobTypeInUI_unrecognized d none hu]
    rfl

/-- C7 witness: a non-string, non-object decision on a job wrapping the
built-in handler 3 starts exactly the job handler 3 creates for the request;
with no wrapped handler it yields the not-implemented error job. -/
theorem fallback_decision_delegates_case :
    startJob (getJobTypeInUI Decision.other (some (Handler.builtin 3)))
        (some (Handler.builtin 3)) ⟨"GET", "http://a/", ""⟩ =
      some ((Handler.builtin 3).maybeCreateJob ⟨"GET", "http://a/", ""⟩) ∧
    getJobTypeInUI Decision.other none =
      JobAction.createErrorJob ERR_NOT_IMPLEMENTED :=
  fallback_decision_delegates Decision.other (Handler.builtin 3)
    ⟨"GET", "http://a/", ""⟩ (by decide)

/-- C10: for a scheme whose installed factory handler is a registered-mode
`CustomProtocolHandler`, a handler returning the plain string `s` resolves to
a string job with mime type "text/plain", charset "UTF-8" and data `s`. -/
theorem string_decision_plain_text_job (st : ProtocolState) (scheme : String)
    (s : String)
    (hfac : st.factory.getProtocolHandler scheme = some Handler.customNone) :
    resolveRequestJob st scheme (Decision.str s) =
      some (JobAction.createStringJob "text/plain" "UTF-8" s) := by
  unfold resolveRequestJob
  rw [hfac]
  rfl

/-- C10 witness: a handler on the registered scheme "app" returning the plain
string "hello" resolves to the text/plain UTF-8 string job with data
"hello". -/
theorem string_decision_plain_text_job_case :
    resolveRequestJob ⟨[("app", some 0)], ⟨[("app", Handler.customNone)], []⟩⟩
        "app" (Decision.str "hello") =
      some (JobAction.createStringJob "text/plain" "UTF-8" "hello") :=
  string_decision_plain_text_job
    ⟨[("app", some 0)], ⟨[("app", Handler.customNone)], []⟩⟩ "app" "hello"
    (by decide)

/-- C8: `GetProtocolHandler` is not a pure query: looking up a scheme absent
from the registry map returns the null handler and inserts a
default-constructed entry for that scheme, after which `Register` for the
scheme fails as already registered — even though the factory does not handle
the scheme and `Register` was never called for it — and leaves that inserted
entry in place. -/
theorem lookup_inserts_default_entry (st : ProtocolState) (scheme : String)
    (h : JsHandler)
    (habs : containsKey st.handlers scheme = false)
    (hnh : st.factory.isHandledProtocol scheme = false) :
    (getProtocolHandler st scheme).1 = none ∧
    containsKey (getProtocolHandler st scheme).2.handlers scheme = true ∧
    (registerProtocol (getProtocolHandler st scheme).2 scheme h).trace =
      [Event.replyError "The Scheme is already registered"] ∧
    (registerProtocol (getProtocolHandler st scheme).2 scheme h).state =
      (getProtocolHandler st scheme).2 := by
  have hl : List.lookup scheme st.handlers = none :=
    lookup_of_containsKey_eq_false habs
  have hgp : getProtocolHandler st scheme =
      (none, { st with handlers := mapInsert st.handlers scheme none }) := by
    simp [getProtocolHandler, hl]
  rw [hgp]
  refine ⟨rfl, containsKey_mapInsert_self _ _ _, ?_, ?_⟩
  · simp [registerProtocol, hnh, containsKey_mapInsert_self]
  · simp [registerProtocol, hnh, containsKey_mapInsert_self]

/-- C8 witness: on a state with an empty registry map, a lookup of "app"
inserts a null entry and a subsequent register of "app" fails as already
registered. -/
theorem lookup_inserts_default_entry_case :
    (getProtocolHandler ⟨[], ⟨[], []⟩⟩ "app").1 = none ∧
    containsKey (getProtocolHandler ⟨[], ⟨[], []⟩⟩ "app").2.handlers "app" =
      true ∧
    (registerProtocol (getProtocolHandler ⟨[], ⟨[], []⟩⟩ "app").2 "app"
        (some 1)).trace =
      [Event.replyError "The Scheme is already registered"] ∧
    (registerProtocol (getProtocolHandler ⟨[], ⟨[], []⟩⟩ "app").2 "app"
        (some 1)).state =
      (getProtocolHandler ⟨[], ⟨[], []⟩⟩ "app").2 :=
  lookup_inserts_default_entry ⟨[], ⟨[], []⟩⟩ "app" (some 1) (by decide)
    (by decide)

/-- C9: for a scheme registered via `Register` (its factory handler wraps no
prior handler) and never intercepted, `Unintercept` passes the `NotRegistered`
validation, removes the map entry, and the I/O-thread restore step reaches the
no-prior-handler `NOTREACHED()` assertion — the existence of a map entry does
not make the assertion branch unreachable. -/
theorem unintercept_registered_scheme_asserts (st : ProtocolState)
    (scheme : String) (h : JsHandler)
    (hnh : st.factory.isHandledProtocol scheme = false)
    (habs : containsKey st.handlers scheme = false) :
    (registerProtocol st scheme h).trace =
      [Event.mapMutation, Event.factoryMutation, Event.replyOk] ∧
    (uninterceptProtocol (registerProtocol st scheme h).state scheme).status =
      OpStatus.assertionFailure ∧
    (uninterceptProtocol (registerProtocol st scheme h).state scheme).trace =
      [Event.mapMutation] ∧
    containsKey
      (uninterceptProtocol (registerProtocol st scheme h).state
        scheme).state.handlers scheme = false := by
  have hB : (registerProtocol st scheme h).state =
      ⟨mapInsert st.handlers scheme h,
        ⟨mapInsert st.factory.handlers scheme Handler.customNone,
          st.factory.builtinHandled⟩⟩ := by
    simp [registerProtocol, hnh, habs, registerProtocolIoTask,
      Factory.setProtocolHandler]
  have htr : (registerProtocol st scheme h).trace =
      [Event.mapMutation, Event.factoryMutation, Event.replyOk] := by
    simp [registerProtocol, hnh, habs]
  refine ⟨htr, ?_⟩
  rw [hB]
  have hk : containsKey (mapInsert st.handlers scheme h) scheme = true :=
    containsKey_mapInsert_self _ _ _
  have hio : uninterceptProtocolIoTask
      ⟨mapInsert st.factory.handlers scheme Handler.customNone,
        st.factory.builtinHandled⟩ scheme = IoOutcome.assertionFailure := by
    simp [uninterceptProtocolIoTask, Factory.getProtocolHandler,
      lookup_mapInsert_self]
  simp [uninterceptProtocol, hk, hio, containsKey_mapErase_self]

/-- C9 witness: register "app" on the empty state, then unintercept it: the
operation ends in the assertion failure after removing the map entry. -/
theorem unintercept_registered_scheme_asserts_case :
    (registerProtocol ⟨[], ⟨[], []⟩⟩ "app" (some 1)).trace =
      [Event.mapMutation, Event.factoryMutation, Event.replyOk] ∧
    (uninterceptProtocol (registerProtocol ⟨[], ⟨[], []⟩⟩ "app" (some 1)).state
        "app").status = OpStatus.assertionFailure ∧
    (uninterceptProtocol (registerProtocol ⟨[], ⟨[], []⟩⟩ "app" (some 1)).state
        "app").trace = [Event.mapMutation] ∧
    containsKey
      (uninterceptProtocol (registerProtocol ⟨[], ⟨[], []⟩⟩ "app"
        (some 1)).state "app").state.handlers "app" = false :=
  unintercept_registered_scheme_asserts ⟨[], ⟨[], []⟩⟩ "app" (some 1)
    (by decide) (by decide)

/-- C6 counterexample: register "app" on the empty state, then unintercept it:
that unintercept invocation hits the `NOTREACHED()` assertion on the I/O
thread and its caller's callback is never run — refuting "the caller's
callback is invoked exactly once" for every invocation. -/
theorem unintercept_assert_drops_reply :
    replyCount
        (uninterceptProtocol
          (registerProtocol ⟨[], ⟨[], []⟩⟩ "app" (some 1)).state "app").trace =
      0 ∧
    (uninterceptProtocol
        (registerProtocol ⟨[], ⟨[], []⟩⟩ "app" (some 1)).state "app").status =
      OpStatus.assertionFailure := by
  decide

/-- C6 amended: every invocation of the four mutation operations that runs to
completion (does not hit an unrecoverable `NOTREACHED()` assertion or crash on
the I/O thread) runs the caller's callback exactly once, carrying success or
an error, and a success reply appears only after the factory mutation; an
invocation stopped by such an assertion delivers no reply at all. -/
theorem mutation_reply_discipline (st : ProtocolState) (scheme : String)
    (h : JsHandler) :
    ∀ r ∈ [registerProtocol st scheme h, unregisterProtocol st scheme,
        interceptProtocol st scheme h, uninterceptProtocol st scheme],
      (r.status = OpStatus.completed →
        replyCount r.trace = 1 ∧
        (Event.replyOk ∈ r.trace →
          r.trace =
            [Event.mapMutation, Event.factoryMutation, Event.replyOk])) ∧
      (r.status ≠ OpStatus.completed → replyCount r.trace = 0) := by
  intro r hr
  simp only [List.mem_cons, List.not_mem_nil, or_false] at hr
  rcases hr with rfl | rfl | rfl | rfl
  · cases h1 : st.factory.isHandledProtocol scheme <;>
      cases h2 : containsKey st.handlers scheme <;>
        simp [registerProtocol, h1, h2, replyCount, isReply]
  · cases h2 : containsKey st.handlers scheme <;>
      simp [unregisterProtocol, h2, replyCount, isReply]
  · cases h1 : st.factory.hasProtocolHandler scheme with
    | false => simp [interceptProtocol, h1, replyCount, isReply]
    | true =>
      cases h2 : containsKey st.handlers scheme with
      | true => simp [interceptProtocol, h1, h2, replyCount, isReply]
      | false =>
        cases hio : interceptProtocolIoTask st.factory scheme <;>
          simp [interceptProtocol, h1, h2, hio, replyCount, isReply]
  · cases h2 : containsKey st.handlers scheme with
    | false => simp [uninterceptProtocol, h2, replyCount, isReply]
    | true =>
      cases hio : uninterceptProtocolIoTask
          { st with
            handlers := mapErase st.handlers scheme : ProtocolState }.factory
          scheme <;>
        simp [uninterceptProtocol, h2, hio, replyCount, isReply]

/-- C6 witness: a concrete completed invocation (registering "app" on the
empty state) runs the callback exactly once, with the success reply after the
factory mutation. -/
theorem mutation_reply_discipline_case :
    replyCount (registerProtocol ⟨[], ⟨[], []⟩⟩ "app" (some 1)).trace = 1 ∧
    (registerProtocol ⟨[], ⟨[], []⟩⟩ "app" (some 1)).trace =
      [Event.mapMutation, Event.factoryMutation, Event.replyOk] :=
  ⟨((mutation_reply_discipline ⟨[], ⟨[], []⟩⟩ "app" (some 1)
        (registerProtocol ⟨[], ⟨[], []⟩⟩ "app" (some 1)) (by simp)).1
      (by decide)).1,
    ((mutation_reply_discipline ⟨[], ⟨[], []⟩⟩ "app" (some 1)
        (registerProtocol ⟨[], ⟨[], []⟩⟩ "app" (some 1)) (by simp)).1
      (by decide)).2 (by decide)⟩

end Atom
